import Mathlib

/-!
Shallow embedding of the model-catalog resolution service of the
interview-assistant repository, together with theorems checking the
natural-language specification against it.

Embedded source files:
  - src/electron/ModelFetchService.ts  (class ModelFetchService)
  - src/shared/aiModels.ts             (ALLOWED_MODELS, DEFAULT_MODELS,
                                        sanitizeModelSelection)

Conventions of the embedding:
  - TypeScript objects become Lean structures; optional fields become Option.
  - A JavaScript Record (object used as a map) becomes an association list
    List (String x V); Object.values is the list of second components in
    insertion order and property lookup is List.lookup.
  - Monetary values (USD per million tokens) are embedded as Rat; token
    counts and timestamps as Nat.
  - The network is an explicit input: the outcome of the provider-native
    fetch and the catalog HTTP response are parameters, and each operation
    reports how many network requests it issued.
  - Array.prototype.sort (a stable sort) is embedded as insertion sort,
    which is also stable, so the resulting list is identical.
    String.prototype.localeCompare on display names is embedded as
    case-insensitive lexicographic comparison with the default collation's
    behaviour on ASCII.
  - JavaScript truthiness is made explicit: a String is falsy exactly when
    empty, a number exactly when zero, undefined is falsy, objects are
    always truthy.
-/

namespace InterviewAssistant

/-! ## JavaScript string primitives -/

/-- Whitespace recognised by String.prototype.trim (ASCII part). -/
def jsWhitespaceChar (c : Char) : Bool :=
  c = ' ' ∨ c = '\t' ∨ c = '\n' ∨ c = '\r' ∨ c = '\x0b' ∨ c = '\x0c'

/-- String.prototype.trim. -/
def jsTrim (s : String) : String :=
  ⟨((s.data.dropWhile jsWhitespaceChar).reverse.dropWhile jsWhitespaceChar).reverse⟩

/-- The test `!s || s.trim().length === 0` used on API keys. -/
def jsBlank (s : String) : Bool :=
  s == "" || jsTrim s == ""

/-- Helper for String.prototype.includes on the underlying characters. -/
def containsAux (needle : List Char) : List Char → Bool
  | [] => needle.isEmpty
  | c :: rest => needle.isPrefixOf (c :: rest) || containsAux needle rest

/-- String.prototype.includes. -/
def strContains (s pat : String) : Bool :=
  containsAux pat.data s.data

/-- String.prototype.startsWith. -/
def strStartsWith (s p : String) : Bool :=
  p.data.isPrefixOf s.data

/-- ASCII lower-casing of one character (String.prototype.toLowerCase). -/
def charLower (c : Char) : Char :=
  if 'A' ≤ c ∧ c ≤ 'Z' then Char.ofNat (c.toNat + 32) else c

/-- The character content of a string, lower-cased. -/
def lowerChars (s : String) : List Char :=
  s.data.map charLower

/-- Lexicographic comparison of character lists (by code point). -/
def charListLe : List Char → List Char → Bool
  | [], _ => true
  | _ :: _, [] => false
  | a :: as, b :: bs =>
    if a.toNat < b.toNat then true
    else if b.toNat < a.toNat then false
    else charListLe as bs

/-! ## Data model (shared/aiModels.ts and ModelFetchService.ts types) -/

/-- The APIProvider union type of shared/aiModels.ts. -/
inductive APIProvider
  | openai
  | gemini
  | anthropic
  | azureOpenai
  | openrouter
deriving DecidableEq, Repr

/-- The string literal each APIProvider case stands for. -/
def providerTag : APIProvider → String
  | .openai => "openai"
  | .gemini => "gemini"
  | .anthropic => "anthropic"
  | .azureOpenai => "azure-openai"
  | .openrouter => "openrouter"

/-- ModelPricing of shared/aiModels.ts (USD per million tokens). -/
structure ModelPricing where
  input : Rat
  output : Rat
  cacheRead : Option Rat := none
  cacheWrite : Option Rat := none
deriving DecidableEq, Repr

/-- The capabilities field of FetchedModel; each flag may be undefined. -/
structure Capabilities where
  chat : Option Bool := none
  vision : Option Bool := none
  audio : Option Bool := none
  embedding : Option Bool := none
deriving DecidableEq, Repr

/-- FetchedModel of shared/aiModels.ts. -/
structure FetchedModel where
  id : String
  name : String
  provider : APIProvider
  pricing : Option ModelPricing := none
  contextLength : Option Nat := none
  capabilities : Option Capabilities := none
deriving DecidableEq, Repr

/-- The cost record of a models.dev catalog entry. -/
structure ModelsDevCost where
  input : Rat
  output : Rat
  cache_read : Option Rat := none
  cache_write : Option Rat := none
deriving DecidableEq, Repr

/-- The limit record of a models.dev catalog entry. -/
structure ModelsDevLimit where
  context : Nat
  output : Nat
deriving DecidableEq, Repr

/-- The modalities record of a models.dev catalog entry. -/
structure ModelsDevModalities where
  input : List String
  output : List String
deriving DecidableEq, Repr

/-- ModelsDevModel of ModelFetchService.ts (one catalog entry). -/
structure ModelsDevModel where
  id : String
  name : String
  family : Option String := none
  cost : ModelsDevCost
  limit : ModelsDevLimit
  modalities : Option ModelsDevModalities := none
  attachment : Option Bool := none
  reasoning : Option Bool := none
  tool_call : Option Bool := none
  status : Option String := none
deriving DecidableEq, Repr

/-- ModelsDevProvider of ModelFetchService.ts.  The models Record is an
association list keyed by the Record's property names. -/
structure ModelsDevProvider where
  id : Option String := none
  name : String
  models : List (String × ModelsDevModel)
deriving DecidableEq, Repr

/-- ModelsDevData: the whole models.dev catalog keyed by provider namespace. -/
abbrev ModelsDevData := List (String × ModelsDevProvider)

/-- The three source tiers of a ModelFetchResult. -/
inductive Tier
  | api
  | modelsDev
  | static
deriving DecidableEq, Repr

/-- ModelFetchResult of ModelFetchService.ts. -/
structure ModelFetchResult where
  success : Bool
  models : List FetchedModel
  error : Option String := none
  cachedAt : Option Nat := none
  source : Option Tier := none
deriving DecidableEq, Repr

/-- ModelFetchOptions of ModelFetchService.ts. -/
structure ModelFetchOptions where
  endpoint : Option String := none
  apiVersion : Option String := none
  forceRefresh : Bool := false
deriving DecidableEq, Repr

/-- CacheEntry of ModelFetchService.ts (one ResultCache slot). -/
structure CacheEntry where
  models : List FetchedModel
  timestamp : Nat
  source : Tier
deriving DecidableEq, Repr

/-- The modelsDevCache field of ModelFetchService (the catalog snapshot). -/
structure ModelsDevCacheState where
  data : Option ModelsDevData := none
  timestamp : Nat := 0
  etag : Option String := none
deriving DecidableEq, Repr

/-- The full mutable state of a ModelFetchService instance. -/
structure ServiceState where
  cache : List (String × CacheEntry)
  modelsDevCache : ModelsDevCacheState
deriving DecidableEq, Repr

/-- CACHE_TTL = 5 minutes in milliseconds. -/
def CACHE_TTL : Nat := 5 * 60 * 1000

/-- MODELS_DEV_CACHE_TTL = 1 hour in milliseconds. -/
def MODELS_DEV_CACHE_TTL : Nat := 60 * 60 * 1000

/-- PROVIDER_TO_MODELS_DEV of ModelFetchService.ts. -/
def PROVIDER_TO_MODELS_DEV : APIProvider → String
  | .openai => "openai"
  | .gemini => "google"
  | .anthropic => "anthropic"
  | .azureOpenai => "azure"
  | .openrouter => ""

/-! ## Static configuration tables (shared/aiModels.ts) -/

/-- The four model category keys of shared/aiModels.ts. -/
inductive ModelCategoryKey
  | extractionModel
  | solutionModel
  | debuggingModel
  | answerModel
deriving DecidableEq, Repr

/-- One row of the DEFAULT_MODELS table. -/
structure DefaultModelSet where
  extractionModel : String
  solutionModel : String
  debuggingModel : String
  answerModel : String
  speechRecognitionModel : Option String := none
deriving DecidableEq, Repr

/-- DEFAULT_MODELS of shared/aiModels.ts. -/
def DEFAULT_MODELS : APIProvider → DefaultModelSet
  | .openai =>
    { extractionModel := "gpt-4o", solutionModel := "gpt-4o",
      debuggingModel := "gpt-4o", answerModel := "gpt-4o-mini",
      speechRecognitionModel := some "whisper-1" }
  | .gemini =>
    { extractionModel := "gemini-3-flash-preview", solutionModel := "gemini-3-flash-preview",
      debuggingModel := "gemini-3-flash-preview", answerModel := "gemini-3-flash-preview",
      speechRecognitionModel := some "gemini-3-flash-preview" }
  | .anthropic =>
    { extractionModel := "claude-3-7-sonnet-20250219", solutionModel := "claude-3-7-sonnet-20250219",
      debuggingModel := "claude-3-7-sonnet-20250219", answerModel := "claude-3-7-sonnet-20250219" }
  | .azureOpenai =>
    { extractionModel := "gpt-4o", solutionModel := "gpt-4o",
      debuggingModel := "gpt-4o", answerModel := "gpt-4o-mini",
      speechRecognitionModel := some "whisper-1" }
  | .openrouter =>
    { extractionModel := "openai/gpt-4o", solutionModel := "openai/gpt-4o",
      debuggingModel := "openai/gpt-4o", answerModel := "openai/gpt-4o-mini" }

/-- The lookup DEFAULT_MODELS[provider]?.[category]. -/
def defaultFor (provider : APIProvider) (category : ModelCategoryKey) : String :=
  match category with
  | .extractionModel => (DEFAULT_MODELS provider).extractionModel
  | .solutionModel => (DEFAULT_MODELS provider).solutionModel
  | .debuggingModel => (DEFAULT_MODELS provider).debuggingModel
  | .answerModel => (DEFAULT_MODELS provider).answerModel

/-- ALLOWED_MODELS of shared/aiModels.ts (static fallbacks). -/
def ALLOWED_MODELS : APIProvider → List String
  | .openai =>
    ["gpt-4o", "gpt-4o-mini"]
  | .gemini =>
    ["gemini-3-pro-preview", "gemini-3-flash-preview", "gemini-3-pro-image-preview",
     "gemini-1.5-pro", "gemini-1.5-flash", "gemini-2.0-flash-exp"]
  | .anthropic =>
    ["claude-3-7-sonnet-20250219", "claude-3-5-sonnet-20241022", "claude-3-opus-20240229"]
  | .azureOpenai =>
    ["gpt-4o", "gpt-4o-mini", "gpt-4", "gpt-35-turbo"]
  | .openrouter =>
    ["openai/gpt-4o", "openai/gpt-4o-mini", "anthropic/claude-3.5-sonnet",
     "anthropic/claude-3-7-sonnet", "google/gemini-pro-1.5", "google/gemini-flash-1.5"]

/-! ## models.dev catalog derivation (ModelFetchService.getModelsFromModelsDev) -/

/-- Name ordering used by the catalog sort: localeCompare on display names,
embedded as case-insensitive lexicographic comparison. -/
def nameRel (a b : FetchedModel) : Prop :=
  charListLe (lowerChars a.name) (lowerChars b.name) = true

instance : DecidableRel nameRel :=
  fun _ _ => inferInstanceAs (Decidable (_ = true))

/-- modelsDevToFetchedModel of ModelFetchService.ts. -/
def modelsDevToFetchedModel (m : ModelsDevModel) (provider : APIProvider) : FetchedModel :=
  { id := m.id,
    name := if m.name == "" then m.id else m.name,
    provider := provider,
    pricing := some
      { input := m.cost.input, output := m.cost.output,
        cacheRead := m.cost.cache_read, cacheWrite := m.cost.cache_write },
    contextLength := some m.limit.context,
    capabilities := some
      { chat := some true,
        vision := m.modalities.map (fun md => md.input.contains "image"),
        audio := m.modalities.map (fun md => md.input.contains "audio"),
        embedding := some (strContains m.id "embedding") } }

/-- The filter predicate of getModelsFromModelsDev: keep an entry unless it
is deprecated, its id contains "embedding" or "tts", or its output token
limit and output cost are both exactly zero. -/
def modelsDevKeep (m : ModelsDevModel) : Bool :=
  !(m.status == some "deprecated")
    && !(strContains m.id "embedding")
    && !(strContains m.id "tts")
    && !(m.limit.output == 0 && m.cost.output == 0)

/-- The catalog entries stored for a provider's namespace (Object.values of
data[modelsDevId].models), or [] when the snapshot, namespace or provider
record is absent. -/
def providerCatalogEntries (st : ModelsDevCacheState) (provider : APIProvider) :
    List ModelsDevModel :=
  match st.data with
  | none => []
  | some data =>
    let modelsDevId := PROVIDER_TO_MODELS_DEV provider
    if modelsDevId == "" then []
    else
      match data.lookup modelsDevId with
      | none => []
      | some providerData => providerData.models.map Prod.snd

/-- getModelsFromModelsDev of ModelFetchService.ts. -/
def getModelsFromModelsDev (st : ModelsDevCacheState) (provider : APIProvider) :
    List FetchedModel :=
  List.insertionSort nameRel
    (((providerCatalogEntries st provider).filter modelsDevKeep).map
      (fun m => modelsDevToFetchedModel m provider))

/-! ## Catalog enrichment (ModelFetchService.enrichWithModelsDev) -/

/-- The catalog Record used by enrichWithModelsDev (data[modelsDevId].models),
or none when the early returns of the function fire. -/
def catalogFor (st : ModelsDevCacheState) (provider : APIProvider) :
    Option (List (String × ModelsDevModel)) :=
  match st.data with
  | none => none
  | some data =>
    let modelsDevId := PROVIDER_TO_MODELS_DEV provider
    if modelsDevId == "" then none
    else
      match data.lookup modelsDevId with
      | none => none
      | some providerData => some providerData.models

/-- JavaScript `a || b` on an optional number versus a number: zero and
undefined are falsy. -/
def jsOrNat (a : Option Nat) (b : Nat) : Nat :=
  match a with
  | some n => if n == 0 then b else n
  | none => b

/-- JavaScript `a || b` on optional booleans: only true is truthy. -/
def jsOrOptBool (a b : Option Bool) : Option Bool :=
  if a == some true then some true else b

/-- The pricing object built from a catalog entry's cost record. -/
def pricingFromCost (c : ModelsDevCost) : ModelPricing :=
  { input := c.input, output := c.output,
    cacheRead := c.cache_read, cacheWrite := c.cache_write }

/-- The per-model enrichment step of enrichWithModelsDev (the arrow function
inside models.map). -/
def enrichOne (catalog : List (String × ModelsDevModel)) (model : FetchedModel) :
    FetchedModel :=
  match catalog.lookup model.id with
  | none => model
  | some catalogEntry =>
    { model with
      pricing := some (model.pricing.getD (pricingFromCost catalogEntry.cost)),
      contextLength := some (jsOrNat model.contextLength catalogEntry.limit.context),
      capabilities := some
        { chat := model.capabilities.bind (fun c => c.chat),
          embedding := model.capabilities.bind (fun c => c.embedding),
          vision := jsOrOptBool (model.capabilities.bind (fun c => c.vision))
            (catalogEntry.modalities.map (fun md => md.input.contains "image")),
          audio := jsOrOptBool (model.capabilities.bind (fun c => c.audio))
            (catalogEntry.modalities.map (fun md => md.input.contains "audio")) } }

/-- enrichWithModelsDev of ModelFetchService.ts. -/
def enrichWithModelsDev (st : ModelsDevCacheState) (models : List FetchedModel)
    (provider : APIProvider) : List FetchedModel :=
  match catalogFor st provider with
  | none => models
  | some catalog =>
    let apiModelIds := models.map (fun m => m.id)
    let enriched := models.map (enrichOne catalog)
    let catalogModels := getModelsFromModelsDev st provider
    let additional := catalogModels.filter (fun m => !(apiModelIds.contains m.id))
    enriched ++ additional

/-! ## Catalog store refresh (ModelFetchService.ensureModelsDevData) -/

/-- The HTTP outcome of the conditional catalog request, as seen by
ensureModelsDevData: a 200 with a body and optional entity tag header, a
304, or any transport failure (including timeout). -/
inductive CatalogResponse
  | ok (data : ModelsDevData) (etag : Option String)
  | notModified
  | failure (msg : String)
deriving DecidableEq, Repr

/-- The `response.headers?.etag || null` normalization: a missing or empty
header becomes null. -/
def normalizeEtag (etag : Option String) : Option String :=
  match etag with
  | none => none
  | some e => if e == "" then none else some e

/-- ensureModelsDevData of ModelFetchService.ts, with the HTTP outcome as an
explicit input.  Returns the new snapshot state and whether a network
request was issued. -/
def ensureModelsDevData (st : ModelsDevCacheState) (now : Nat)
    (resp : CatalogResponse) : ModelsDevCacheState × Bool :=
  if st.data.isSome ∧ now - st.timestamp < MODELS_DEV_CACHE_TTL then
    (st, false)
  else
    match resp with
    | .notModified => ({ st with timestamp := now }, true)
    | .ok data etag => ({ data := some data, timestamp := now, etag := normalizeEtag etag }, true)
    | .failure _ => (st, true)

/-! ## Static fallback and cache key (ModelFetchService) -/

/-- getStaticFallbackModels of ModelFetchService.ts. -/
def getStaticFallbackModels (provider : APIProvider) : List FetchedModel :=
  (ALLOWED_MODELS provider).map (fun id =>
    { id := id, name := id, provider := provider })

/-- One step of the hashKey loop: hash = ((hash << 5) - hash) + charCode,
with int32 wrap-around, i.e. hash * 31 + charCode modulo 2^32. -/
def hashStep (h : Nat) (c : Char) : Nat :=
  (h * 31 + c.toNat) % 4294967296

/-- The digit characters of Number.prototype.toString(36). -/
def base36Char (n : Nat) : Char :=
  if n < 10 then Char.ofNat (48 + n) else Char.ofNat (87 + n)

/-- Base-36 digit expansion of a natural number (most significant first). -/
def base36Aux (n : Nat) (acc : List Char) : List Char :=
  if h : n < 36 then base36Char n :: acc
  else base36Aux (n / 36) (base36Char (n % 36) :: acc)
termination_by n
decreasing_by
  exact Nat.div_lt_self (by omega) (by omega)

/-- Number.prototype.toString(36) on a natural number. -/
def natToBase36 (n : Nat) : String :=
  ⟨base36Aux n []⟩

/-- hashKey of ModelFetchService.ts: the 32-bit string hash rendered in
base 36, with a minus sign when the int32 result is negative. -/
def hashKey (key : String) : String :=
  let h := key.data.foldl hashStep 0
  if h < 2147483648 then natToBase36 h
  else "-" ++ natToBase36 (4294967296 - h)

/-- The ResultCache key `provider:hashKey(apiKey)`. -/
def cacheKey (provider : APIProvider) (apiKey : String) : String :=
  providerTag provider ++ ":" ++ hashKey apiKey

/-- Map.prototype.set on the association-list embedding of the ResultCache:
an existing key keeps its position, a new key is appended. -/
def mapSet (m : List (String × CacheEntry)) (k : String) (v : CacheEntry) :
    List (String × CacheEntry) :=
  if (m.lookup k).isSome then
    m.map (fun kv => if kv.1 == k then (k, v) else kv)
  else m ++ [(k, v)]

/-- The fresh-cache check of fetchModels: the cached entry to return, if
forceRefresh is unset and a younger-than-TTL entry exists. -/
def cacheHit (cache : List (String × CacheEntry)) (key : String)
    (forceRefresh : Bool) (now : Nat) : Option CacheEntry :=
  if forceRefresh then none
  else
    match cache.lookup key with
    | none => none
    | some cached => if now - cached.timestamp < CACHE_TTL then some cached else none

/-! ## fetchModels (ModelFetchService.fetchModels) -/

/-- The environment of one fetchModels call: the outcome the provider-native
fetcher would produce (a normalized model list, or the thrown error message
covering transport, auth, parse, missing-endpoint and unknown-provider
failures), and the catalog HTTP outcome. -/
structure FetchEnv where
  providerResult : Except String (List FetchedModel)
  catalogResponse : CatalogResponse
deriving Repr

/-- The outcome of one fetchModels call: the returned ModelFetchResult, the
service state afterwards, and how many network requests were issued. -/
structure FetchOutcome where
  result : ModelFetchResult
  state : ServiceState
  networkCalls : Nat
deriving DecidableEq, Repr

/-- fetchModels of ModelFetchService.ts. -/
def fetchModels (st : ServiceState) (provider : APIProvider) (apiKey : String)
    (options : ModelFetchOptions) (now : Nat) (env : FetchEnv) : FetchOutcome :=
  if jsBlank apiKey then
    let ensured := ensureModelsDevData st.modelsDevCache now env.catalogResponse
    let catalogNet := if ensured.2 then 1 else 0
    let catalogModels := getModelsFromModelsDev ensured.1 provider
    if catalogModels.length > 0 then
      { result := { success := true, models := catalogModels, source := some .modelsDev },
        state := { st with modelsDevCache := ensured.1 },
        networkCalls := catalogNet }
    else
      { result := { success := false, models := getStaticFallbackModels provider,
                    error := some "API key is required", source := some .static },
        state := { st with modelsDevCache := ensured.1 },
        networkCalls := catalogNet }
  else
    let key := cacheKey provider apiKey
    match cacheHit st.cache key options.forceRefresh now with
    | some cached =>
      { result := { success := true, models := cached.models,
                    cachedAt := some cached.timestamp, source := some cached.source },
        state := st, networkCalls := 0 }
    | none =>
      let ensured := ensureModelsDevData st.modelsDevCache now env.catalogResponse
      let catalogNet := if ensured.2 then 1 else 0
      match env.providerResult with
      | .ok apiModels =>
        let models :=
          if provider == .openrouter then apiModels
          else enrichWithModelsDev ensured.1 apiModels provider
        { result := { success := true, models := models, source := some .api },
          state := { cache := mapSet st.cache key
                       { models := models, timestamp := now, source := .api },
                     modelsDevCache := ensured.1 },
          networkCalls := 1 + catalogNet }
      | .error _ =>
        let cat := getModelsFromModelsDev ensured.1 provider
        let fallbackModels := if cat.length > 0 then cat else getStaticFallbackModels provider
        let fallbackSource : Tier := if cat.length > 0 then .modelsDev else .static
        let models :=
          if provider == .openrouter then fallbackModels
          else enrichWithModelsDev ensured.1 fallbackModels provider
        { result := { success := true, models := models, source := some fallbackSource },
          state := { cache := mapSet st.cache key
                       { models := models, timestamp := now, source := fallbackSource },
                     modelsDevCache := ensured.1 },
          networkCalls := 1 + catalogNet }

/-! ## clearCache (ModelFetchService.clearCache) -/

/-- clearCache of ModelFetchService.ts. -/
def clearCache (st : ServiceState) (provider : Option APIProvider) : ServiceState :=
  match provider with
  | some p =>
    { st with cache := st.cache.filter (fun kv => !(strStartsWith kv.1 (providerTag p))) }
  | none => { st with cache := [] }

/-! ## sanitizeModelSelection (shared/aiModels.ts) -/

/-- The dynamic allow-list acceptance test of sanitizeModelSelection. -/
def dalHit (dal : Option (List String)) (model : String) : Bool :=
  match dal with
  | none => false
  | some l => decide (l.length > 0) && l.contains model

/-- The open-ended provider acceptance test of sanitizeModelSelection:
azure-openai and openrouter accept any non-blank model string. -/
def dynamicProviderOk (provider : APIProvider) (model : String) : Bool :=
  (provider == .azureOpenai || provider == .openrouter)
    && !(model == "") && decide ((jsTrim model).length > 0)

/-- sanitizeModelSelection of shared/aiModels.ts. -/
def sanitizeModelSelection (model : String) (provider : APIProvider)
    (category : ModelCategoryKey) (dynamicAllowList : Option (List String)) : String :=
  if dalHit dynamicAllowList model then model
  else if dynamicProviderOk provider model then model
  else if (ALLOWED_MODELS provider).contains model then model
  else
    let fallback := defaultFor provider category
    if !(fallback == "") then fallback else model

/-! ## Supporting lemmas -/

theorem lookup_filter_keys {β : Type} (p : String → Bool) (k : String) :
    ∀ l : List (String × β),
      (l.filter (fun kv => p kv.1)).lookup k = if p k then l.lookup k else none := by
  intro l
  induction l with
  | nil => by_cases hp : p k <;> simp [hp]
  | cons kv t ih =>
    obtain ⟨a, b⟩ := kv
    by_cases hp : p a
    · by_cases hk : k = a
      · subst hk
        simp [List.filter, hp, List.lookup, ih]
      · have hne : (k == a) = false := by simp [hk]
        simp [List.filter, hp, List.lookup, hne, ih]
    · by_cases hk : k = a
      · subst hk
        have hp' : p k = false := by simpa using hp
        simp [List.filter, hp', List.lookup, ih]
      · have hne : (k == a) = false := by simp [hk]
        have hp' : p a = false := by simpa using hp
        simp [List.filter, hp', List.lookup, hne, ih]

theorem isPrefixOf_self_append (l r : List Char) : l.isPrefixOf (l ++ r) = true := by
  induction l with
  | nil => cases r <;> simp [List.isPrefixOf]
  | cons a as ih => simp [List.isPrefixOf, ih]

/-- Whether two character lists disagree at a position inside both. -/
def firstDiffWithin : List Char → List Char → Bool
  | a :: as, b :: bs => if a = b then firstDiffWithin as bs else true
  | _, _ => false

theorem not_isPrefixOf_append_of_firstDiffWithin :
    ∀ (l1 l2 : List Char), firstDiffWithin l1 l2 = true →
      ∀ r, l1.isPrefixOf (l2 ++ r) = false := by
  intro l1
  induction l1 with
  | nil => intro l2 h r; cases l2 <;> simp [firstDiffWithin] at h
  | cons a as ih =>
    intro l2 h r
    cases l2 with
    | nil => simp [firstDiffWithin] at h
    | cons b bs =>
      by_cases hab : a = b
      · subst hab
        have h' : firstDiffWithin as bs = true := by simpa [firstDiffWithin] using h
        simp [List.isPrefixOf, ih bs h' r]
      · have hne : (a == b) = false := by simp [hab]
        simp [List.isPrefixOf, hne]

theorem providerTag_mismatch (p q : APIProvider) (hpq : q ≠ p) :
    firstDiffWithin (providerTag p).data ((providerTag q ++ ":").data) = true := by
  cases p <;> cases q <;> first
    | exact absurd rfl hpq
    | decide

theorem strStartsWith_other_tag (p q : APIProvider) (h : String) (hpq : q ≠ p) :
    strStartsWith (providerTag q ++ ":" ++ h) (providerTag p) = false := by
  unfold strStartsWith
  rw [String.data_append]
  exact not_isPrefixOf_append_of_firstDiffWithin _ _ (providerTag_mismatch p q hpq) _

theorem strStartsWith_own_tag (p : APIProvider) (h : String) :
    strStartsWith (providerTag p ++ ":" ++ h) (providerTag p) = true := by
  unfold strStartsWith
  rw [String.data_append, String.data_append]
  rw [List.append_assoc]
  exact isPrefixOf_self_append _ _

theorem lookup_map_update (k : String) (v : CacheEntry) :
    ∀ t : List (String × CacheEntry), (t.lookup k).isSome →
      (t.map (fun kv => if kv.1 == k then (k, v) else kv)).lookup k = some v := by
  intro t
  induction t with
  | nil => intro h; simp at h
  | cons kv t ih =>
    intro h
    obtain ⟨a, b⟩ := kv
    by_cases hk : a = k
    · subst hk
      simp only [List.map_cons, beq_self_eq_true, if_true]
      simp [List.lookup]
    · have h1 : (a == k) = false := by simp [hk]
      have h2 : (k == a) = false := by simp [Ne.symm hk]
      have h' : (t.lookup k).isSome := by
        simpa [List.lookup, h2] using h
      simp only [List.map_cons, h1, Bool.false_eq_true, if_false]
      simpa [List.lookup, h2] using ih h'

theorem lookup_append_single (k : String) (v : CacheEntry) :
    ∀ m : List (String × CacheEntry), m.lookup k = none →
      (m ++ [(k, v)]).lookup k = some v := by
  intro m
  induction m with
  | nil => intro _; simp [List.lookup]
  | cons kv t ih =>
    intro h
    obtain ⟨a, b⟩ := kv
    by_cases hk : k = a
    · subst hk
      simp [List.lookup] at h
    · have h2 : (k == a) = false := by simp [hk]
      have h' : t.lookup k = none := by
        simpa [List.lookup, h2] using h
      simpa [List.lookup, h2] using ih h'

theorem lookup_mapSet_self (m : List (String × CacheEntry)) (k : String) (v : CacheEntry) :
    (mapSet m k v).lookup k = some v := by
  unfold mapSet
  by_cases hs : (m.lookup k).isSome
  · rw [if_pos hs]
    exact lookup_map_update k v m hs
  · rw [if_neg hs]
    have hnone : m.lookup k = none := by
      cases h : m.lookup k with
      | none => rfl
      | some x => rw [h] at hs; simp at hs
    exact lookup_append_single k v m hnone

/-! ## C8: catalog store conditional refresh -/

/-- C8: for the catalog store (ensureModelsDevData), when the snapshot is
stale enough that a request is made: a 304 response leaves the catalog data
and entity tag unchanged and updates only the fetch timestamp; a 200
response replaces the whole snapshot and entity tag; any transport failure
leaves the snapshot untouched (and the function returns normally rather
than propagating); and once the resulting snapshot holds data, a subsequent
call within the 1-hour TTL issues no network request and changes nothing. -/
theorem C8_catalog_refresh :
    (∀ (st : ModelsDevCacheState) (now : Nat),
       ¬(st.data.isSome ∧ now - st.timestamp < MODELS_DEV_CACHE_TTL) →
       (ensureModelsDevData st now .notModified).1.data = st.data ∧
       (ensureModelsDevData st now .notModified).1.etag = st.etag ∧
       (ensureModelsDevData st now .notModified).1.timestamp = now) ∧
    (∀ (st : ModelsDevCacheState) (now : Nat) (data : ModelsDevData) (etag : Option String),
       ¬(st.data.isSome ∧ now - st.timestamp < MODELS_DEV_CACHE_TTL) →
       (ensureModelsDevData st now (.ok data etag)).1 =
         { data := some data, timestamp := now, etag := normalizeEtag etag }) ∧
    (∀ (st : ModelsDevCacheState) (now : Nat) (msg : String),
       (ensureModelsDevData st now (.failure msg)).1 = st) ∧
    (∀ (st : ModelsDevCacheState) (now : Nat) (resp : CatalogResponse)
       (now2 : Nat) (resp2 : CatalogResponse),
       (ensureModelsDevData st now resp).1.data.isSome →
       now2 - (ensureModelsDevData st now resp).1.timestamp < MODELS_DEV_CACHE_TTL →
       ensureModelsDevData (ensureModelsDevData st now resp).1 now2 resp2 =
         ((ensureModelsDevData st now resp).1, false)) := by
  refine ⟨?_, ?_, ?_, ?_⟩
  · intro st now hstale
    unfold ensureModelsDevData
    rw [if_neg hstale]
    exact ⟨rfl, rfl, rfl⟩
  · intro st now data etag hstale
    unfold ensureModelsDevData
    rw [if_neg hstale]
  · intro st now msg
    unfold ensureModelsDevData
    by_cases hfresh : st.data.isSome ∧ now - st.timestamp < MODELS_DEV_CACHE_TTL
    · rw [if_pos hfresh]
    · rw [if_neg hfresh]
  · intro st now resp now2 resp2 hdata hfresh
    generalize hst2 : (ensureModelsDevData st now resp).1 = st2 at hdata hfresh ⊢
    unfold ensureModelsDevData
    rw [if_pos ⟨hdata, hfresh⟩]

/-- Witness for C8 at concrete inputs. -/
theorem C8_catalog_refresh_witness :
    ((ensureModelsDevData ⟨none, 0, some "e1"⟩ 7 .notModified).1.data = none ∧
     (ensureModelsDevData ⟨none, 0, some "e1"⟩ 7 .notModified).1.etag = some "e1" ∧
     (ensureModelsDevData ⟨none, 0, some "e1"⟩ 7 .notModified).1.timestamp = 7) ∧
    ((ensureModelsDevData ⟨none, 0, some "e1"⟩ 7 (.ok [] (some "e2"))).1 =
      { data := some [], timestamp := 7, etag := normalizeEtag (some "e2") }) ∧
    ((ensureModelsDevData ⟨none, 0, some "e1"⟩ 7 (.failure "boom")).1 = ⟨none, 0, some "e1"⟩) ∧
    (ensureModelsDevData (ensureModelsDevData ⟨none, 0, some "e1"⟩ 7 (.ok [] (some "e2"))).1
        8 (.failure "later") =
      ((ensureModelsDevData ⟨none, 0, some "e1"⟩ 7 (.ok [] (some "e2"))).1, false)) :=
  ⟨C8_catalog_refresh.1 ⟨none, 0, some "e1"⟩ 7 (by decide),
   C8_catalog_refresh.2.1 ⟨none, 0, some "e1"⟩ 7 [] (some "e2") (by decide),
   C8_catalog_refresh.2.2.1 ⟨none, 0, some "e1"⟩ 7 "boom",
   C8_catalog_refresh.2.2.2 ⟨none, 0, some "e1"⟩ 7 (.ok [] (some "e2")) 8 (.failure "later")
     (by decide) (by decide)⟩

/-! ## C9: sanitizeModelSelection is idempotent -/

theorem default_not_empty (p : APIProvider) (c : ModelCategoryKey) :
    (defaultFor p c == "") = false := by
  cases p <;> cases c <;> rfl

theorem sanitize_default_fixed (p : APIProvider) (c : ModelCategoryKey)
    (dal : Option (List String)) :
    sanitizeModelSelection (defaultFor p c) p c dal = defaultFor p c := by
  unfold sanitizeModelSelection
  by_cases h : dalHit dal (defaultFor p c) = true
  · rw [if_pos h]
  · rw [if_neg h]
    cases p <;> cases c <;> decide

/-- C9: sanitizeModelSelection is idempotent: for every chosen id, provider,
category and optional dynamic allow-list, sanitizing its own output with the
same arguments returns that output unchanged (and, being a pure function,
the same inputs always yield the same output). -/
theorem C9_sanitize_idempotent (model : String) (provider : APIProvider)
    (category : ModelCategoryKey) (dal : Option (List String)) :
    sanitizeModelSelection (sanitizeModelSelection model provider category dal)
        provider category dal =
      sanitizeModelSelection model provider category dal := by
  by_cases h1 : dalHit dal model = true
  · have e : sanitizeModelSelection model provider category dal = model := by
      unfold sanitizeModelSelection; rw [if_pos h1]
    rw [e]; exact e
  · by_cases h2 : dynamicProviderOk provider model = true
    · have e : sanitizeModelSelection model provider category dal = model := by
        unfold sanitizeModelSelection; rw [if_neg h1, if_pos h2]
      rw [e]; exact e
    · by_cases h3 : (ALLOWED_MODELS provider).contains model = true
      · have e : sanitizeModelSelection model provider category dal = model := by
          unfold sanitizeModelSelection; rw [if_neg h1, if_neg h2, if_pos h3]
        rw [e]; exact e
      · have e : sanitizeModelSelection model provider category dal =
            defaultFor provider category := by
          unfold sanitizeModelSelection
          rw [if_neg h1, if_neg h2, if_neg h3]
          simp [default_not_empty]
        rw [e]
        exact sanitize_default_fixed provider category dal

/-! ## C10: clearCache removes exactly one provider's entries -/

/-- C10: clearCache with a provider argument removes exactly the ResultCache
entries whose key begins with that provider tag — in particular every entry
keyed under any other provider's tag survives unchanged and every entry
keyed under the given provider's tag is gone — while the catalog snapshot
is untouched; clearCache with no argument empties the ResultCache and also
leaves the catalog snapshot untouched. -/
theorem C10_clearCache_frame (st : ServiceState) (p : APIProvider) :
    (clearCache st (some p)).modelsDevCache = st.modelsDevCache ∧
    (clearCache st none).modelsDevCache = st.modelsDevCache ∧
    (clearCache st none).cache = [] ∧
    (∀ k : String, strStartsWith k (providerTag p) = true →
       (clearCache st (some p)).cache.lookup k = none) ∧
    (∀ k : String, strStartsWith k (providerTag p) = false →
       (clearCache st (some p)).cache.lookup k = st.cache.lookup k) ∧
    (∀ (q : APIProvider) (h : String), q ≠ p →
       (clearCache st (some p)).cache.lookup (providerTag q ++ ":" ++ h) =
         st.cache.lookup (providerTag q ++ ":" ++ h)) ∧
    (∀ h : String,
       (clearCache st (some p)).cache.lookup (providerTag p ++ ":" ++ h) = none) := by
  have hc : (clearCache st (some p)).cache =
      st.cache.filter (fun kv => !(strStartsWith kv.1 (providerTag p))) := rfl
  refine ⟨rfl, rfl, rfl, ?_, ?_, ?_, ?_⟩
  · intro k hk
    rw [hc, lookup_filter_keys (fun s => !(strStartsWith s (providerTag p))) k st.cache]
    simp [hk]
  · intro k hk
    rw [hc, lookup_filter_keys (fun s => !(strStartsWith s (providerTag p))) k st.cache]
    simp [hk]
  · intro q h hq
    rw [hc, lookup_filter_keys (fun s => !(strStartsWith s (providerTag p))) _ st.cache]
    simp [strStartsWith_other_tag p q h hq]
  · intro h
    rw [hc, lookup_filter_keys (fun s => !(strStartsWith s (providerTag p))) _ st.cache]
    simp [strStartsWith_own_tag p h]

/-- Cache with one entry per provider key shape, used as a witness fixture. -/
def twoEntryState : ServiceState :=
  { cache := [("openai:aa", { models := [], timestamp := 5, source := .api }),
              ("gemini:bb", { models := [], timestamp := 6, source := .static })],
    modelsDevCache := { data := none, timestamp := 3, etag := some "E" } }

/-- Witness for C10 at concrete inputs. -/
theorem C10_clearCache_frame_witness :
    (clearCache twoEntryState (some .openai)).modelsDevCache = twoEntryState.modelsDevCache ∧
    (clearCache twoEntryState none).cache = [] ∧
    (clearCache twoEntryState (some .openai)).cache.lookup
        (providerTag .gemini ++ ":" ++ "bb") =
      twoEntryState.cache.lookup (providerTag .gemini ++ ":" ++ "bb") ∧
    (clearCache twoEntryState (some .openai)).cache.lookup
        (providerTag .openai ++ ":" ++ "aa") = none :=
  ⟨(C10_clearCache_frame twoEntryState .openai).1,
   (C10_clearCache_frame twoEntryState .openai).2.2.1,
   (C10_clearCache_frame twoEntryState .openai).2.2.2.2.2.1 .gemini "bb" (by decide),
   (C10_clearCache_frame twoEntryState .openai).2.2.2.2.2.2 "aa"⟩

/-! ## Shared fixtures for fetchModels claims -/

/-- A service state with empty cache and an unpopulated catalog snapshot. -/
def emptyState : ServiceState :=
  { cache := [], modelsDevCache := { data := none, timestamp := 0, etag := none } }

/-- An environment where both the provider fetch and the catalog fetch fail. -/
def failEnv : FetchEnv :=
  { providerResult := .error "provider down", catalogResponse := .failure "net down" }

/-- A chat-eligible catalog entry. -/
def entryGptX : ModelsDevModel :=
  { id := "gpt-x", name := "GPT X",
    cost := { input := 1, output := 2 }, limit := { context := 1000, output := 100 } }

/-- A service state whose catalog snapshot holds one eligible openai model. -/
def stateGptX : ServiceState :=
  { cache := [],
    modelsDevCache :=
      { data := some [("openai", { name := "OpenAI", models := [("gpt-x", entryGptX)] })],
        timestamp := 0, etag := none } }

/-! ## C1: provider-fetch failure never yields tier "api" -/

/-- C1: for every provider, when fetchModels is called with a non-blank
credential, misses the ResultCache and the provider-native fetch fails, the
returned source tier is never "api": it is "models.dev" when the universal
catalog yields at least one eligible model for the provider's namespace and
"static" otherwise. -/
theorem C1_fallback_tier (st : ServiceState) (provider : APIProvider) (apiKey : String)
    (options : ModelFetchOptions) (now : Nat) (env : FetchEnv) (msg : String)
    (hkey : jsBlank apiKey = false)
    (hmiss : cacheHit st.cache (cacheKey provider apiKey) options.forceRefresh now = none)
    (hfail : env.providerResult = .error msg) :
    (fetchModels st provider apiKey options now env).result.source ≠ some Tier.api ∧
    (getModelsFromModelsDev
        (ensureModelsDevData st.modelsDevCache now env.catalogResponse).1 provider ≠ [] →
      (fetchModels st provider apiKey options now env).result.source = some Tier.modelsDev) ∧
    (getModelsFromModelsDev
        (ensureModelsDevData st.modelsDevCache now env.catalogResponse).1 provider = [] →
      (fetchModels st provider apiKey options now env).result.source = some Tier.static) := by
  have e : (fetchModels st provider apiKey options now env).result.source =
      some (if (getModelsFromModelsDev
          (ensureModelsDevData st.modelsDevCache now env.catalogResponse).1 provider).length > 0
        then Tier.modelsDev else Tier.static) := by
    simp only [fetchModels, hkey, Bool.false_eq_true, if_false, hmiss, hfail]
  refine ⟨?_, ?_, ?_⟩
  · rw [e]
    by_cases hcat : (getModelsFromModelsDev
        (ensureModelsDevData st.modelsDevCache now env.catalogResponse).1 provider).length > 0
    · rw [if_pos hcat]; simp
    · rw [if_neg hcat]; simp
  · intro hne
    rw [e, if_pos (by simpa [List.length_pos] using hne)]
  · intro hnil
    rw [e, if_neg (by simp [hnil])]

/-- Witness for C1 at concrete inputs. -/
theorem C1_fallback_tier_witness :
    (fetchModels stateGptX .openai "k" {} 0 failEnv).result.source ≠ some Tier.api ∧
    (getModelsFromModelsDev
        (ensureModelsDevData stateGptX.modelsDevCache 0 failEnv.catalogResponse).1 .openai ≠ [] →
      (fetchModels stateGptX .openai "k" {} 0 failEnv).result.source = some Tier.modelsDev) ∧
    (getModelsFromModelsDev
        (ensureModelsDevData stateGptX.modelsDevCache 0 failEnv.catalogResponse).1 .openai = [] →
      (fetchModels stateGptX .openai "k" {} 0 failEnv).result.source = some Tier.static) :=
  C1_fallback_tier stateGptX .openai "k" {} 0 failEnv "provider down"
    (by decide) (by decide) rfl

/-! ## C2: when fetchModels reports success = false -/

/-- C2 counterexample: with a blank credential and an unpopulated catalog,
fetchModels returns success = false even though the static list for the
provider is non-empty (and is in fact returned as models), so failure does
not require exhaustion of all three tiers. -/
theorem C2_success_counterexample :
    (fetchModels emptyState .openai "" {} 0 failEnv).result.success = false ∧
    (fetchModels emptyState .openai "" {} 0 failEnv).result.models ≠ [] ∧
    getStaticFallbackModels .openai ≠ [] := by
  refine ⟨rfl, ?_, ?_⟩ <;> decide

/-- C2 amended: fetchModels returns success = false exactly when the
credential is blank and the universal catalog yields zero eligible models
for the provider; with a non-blank credential the result always has
success = true, whatever tier it degrades to. -/
theorem C2_success_characterization (st : ServiceState) (provider : APIProvider)
    (apiKey : String) (options : ModelFetchOptions) (now : Nat) (env : FetchEnv) :
    (fetchModels st provider apiKey options now env).result.success = false ↔
      (jsBlank apiKey = true ∧
       getModelsFromModelsDev
         (ensureModelsDevData st.modelsDevCache now env.catalogResponse).1 provider = []) := by
  by_cases hkey : jsBlank apiKey = true
  · by_cases hcat : (getModelsFromModelsDev
        (ensureModelsDevData st.modelsDevCache now env.catalogResponse).1 provider).length > 0
    · have e : (fetchModels st provider apiKey options now env).result.success = true := by
        simp only [fetchModels, hkey, if_true]
        rw [if_pos hcat]
      rw [e]
      simp only [Bool.true_eq_false, false_iff, not_and]
      intro _ hnil
      rw [hnil] at hcat
      simp at hcat
    · have e : (fetchModels st provider apiKey options now env).result.success = false := by
        simp only [fetchModels, hkey, if_true]
        rw [if_neg hcat]
      rw [e]
      have hnil : getModelsFromModelsDev
          (ensureModelsDevData st.modelsDevCache now env.catalogResponse).1 provider = [] := by
        apply List.eq_nil_of_length_eq_zero
        omega
      simp [hkey, hnil]
  · have hkey' : jsBlank apiKey = false := by
      cases h : jsBlank apiKey with
      | true => exact absurd h hkey
      | false => rfl
    have e : (fetchModels st provider apiKey options now env).result.success = true := by
      simp only [fetchModels, hkey', Bool.false_eq_true, if_false]
      cases hhit : cacheHit st.cache (cacheKey provider apiKey) options.forceRefresh now with
      | some cached => rfl
      | none =>
        cases hres : env.providerResult with
        | ok apiModels => rfl
        | error msg => rfl
    rw [e]
    simp [hkey']

/-! ## C3: the error field after a provider-fetch failure -/

/-- C3 counterexample: with a non-blank credential, a failing provider fetch
and a catalog that yields models, fetchModels returns tier "models.dev"
(not "api") yet its error field is nil — the underlying fetch failure
message is not carried in the result. -/
theorem C3_error_counterexample :
    (fetchModels stateGptX .openai "k" {} 0 failEnv).result.source = some Tier.modelsDev ∧
    (fetchModels stateGptX .openai "k" {} 0 failEnv).result.source ≠ some Tier.api ∧
    (fetchModels stateGptX .openai "k" {} 0 failEnv).result.error = none := by
  refine ⟨rfl, ?_, rfl⟩
  decide

theorem enrichWithModelsDev_ne_nil (st : ModelsDevCacheState) (l : List FetchedModel)
    (provider : APIProvider) (h : l ≠ []) : enrichWithModelsDev st l provider ≠ [] := by
  unfold enrichWithModelsDev
  cases hcf : catalogFor st provider with
  | none => simpa using h
  | some catalog =>
    simp only []
    intro hc
    have h1 : l.map (enrichOne catalog) = [] := (List.append_eq_nil.mp hc).1
    exact h (by simpa using h1)

/-- C3 amended: after a provider-fetch failure with a non-blank credential
(and a ResultCache miss), the returned error field is nil — the failure is
only logged, not surfaced — while the models list is still non-empty
whenever the static list for the provider is non-empty. -/
theorem C3_error_amended (st : ServiceState) (provider : APIProvider) (apiKey : String)
    (options : ModelFetchOptions) (now : Nat) (env : FetchEnv) (msg : String)
    (hkey : jsBlank apiKey = false)
    (hmiss : cacheHit st.cache (cacheKey provider apiKey) options.forceRefresh now = none)
    (hfail : env.providerResult = .error msg) :
    (fetchModels st provider apiKey options now env).result.error = none ∧
    (getStaticFallbackModels provider ≠ [] →
      (fetchModels st provider apiKey options now env).result.models ≠ []) := by
  constructor
  · simp only [fetchModels, hkey, Bool.false_eq_true, if_false, hmiss, hfail]
  · intro hstatic
    simp only [fetchModels, hkey, Bool.false_eq_true, if_false, hmiss, hfail]
    have hfb : (if (getModelsFromModelsDev
          (ensureModelsDevData st.modelsDevCache now env.catalogResponse).1 provider).length > 0
        then getModelsFromModelsDev
          (ensureModelsDevData st.modelsDevCache now env.catalogResponse).1 provider
        else getStaticFallbackModels provider) ≠ [] := by
      by_cases hc : (getModelsFromModelsDev
          (ensureModelsDevData st.modelsDevCache now env.catalogResponse).1 provider).length > 0
      · rw [if_pos hc]
        intro hnil
        rw [hnil] at hc
        simp at hc
      · rw [if_neg hc]
        exact hstatic
    by_cases hor : (provider == APIProvider.openrouter) = true
    · rw [if_pos hor]
      exact hfb
    · rw [if_neg hor]
      exact enrichWithModelsDev_ne_nil _ _ _ hfb

/-- Witness for C3 (amended) at concrete inputs. -/
theorem C3_error_amended_witness :
    (fetchModels stateGptX .openai "k" {} 0 failEnv).result.error = none ∧
    (getStaticFallbackModels .openai ≠ [] →
      (fetchModels stateGptX .openai "k" {} 0 failEnv).result.models ≠ []) :=
  C3_error_amended stateGptX .openai "k" {} 0 failEnv "provider down"
    (by decide) (by decide) rfl

/-! ## C4: a fresh ResultCache entry is returned verbatim without network -/

theorem fetchModels_miss_shape (st : ServiceState) (provider : APIProvider)
    (apiKey : String) (options : ModelFetchOptions) (now : Nat) (env : FetchEnv)
    (hkey : jsBlank apiKey = false)
    (hmiss : cacheHit st.cache (cacheKey provider apiKey) options.forceRefresh now = none) :
    ∃ src : Tier,
      (fetchModels st provider apiKey options now env).result.source = some src ∧
      (fetchModels st provider apiKey options now env).result.success = true ∧
      (fetchModels st provider apiKey options now env).state.cache =
        mapSet st.cache (cacheKey provider apiKey)
          { models := (fetchModels st provider apiKey options now env).result.models,
            timestamp := now, source := src } := by
  cases hres : env.providerResult with
  | ok apiModels =>
    refine ⟨.api, ?_, ?_, ?_⟩ <;>
      simp only [fetchModels, hkey, Bool.false_eq_true, if_false, hmiss, hres]
  | error msg =>
    refine ⟨if (getModelsFromModelsDev
        (ensureModelsDevData st.modelsDevCache now env.catalogResponse).1 provider).length > 0
      then Tier.modelsDev else Tier.static, ?_, ?_, ?_⟩ <;>
      simp only [fetchModels, hkey, Bool.false_eq_true, if_false, hmiss, hres]

/-- C4: for every provider, a fetchModels call that performed network work
(here: a forced refresh) is followed, within the 5-minute TTL and with
forceRefresh unset, by a second fetchModels call for the same provider and
credential that returns the same models list and the same source tier,
performs zero network calls, and leaves the service state unchanged. -/
theorem C4_cached_resolve (st : ServiceState) (provider : APIProvider) (apiKey : String)
    (opts1 : ModelFetchOptions) (now1 : Nat) (env1 : FetchEnv) (now2 : Nat) (env2 : FetchEnv)
    (hkey : jsBlank apiKey = false)
    (hforce : opts1.forceRefresh = true)
    (hfresh : now2 - now1 < CACHE_TTL) :
    (fetchModels (fetchModels st provider apiKey opts1 now1 env1).state provider apiKey
        {} now2 env2).result.models =
      (fetchModels st provider apiKey opts1 now1 env1).result.models ∧
    (fetchModels (fetchModels st provider apiKey opts1 now1 env1).state provider apiKey
        {} now2 env2).result.source =
      (fetchModels st provider apiKey opts1 now1 env1).result.source ∧
    (fetchModels (fetchModels st provider apiKey opts1 now1 env1).state provider apiKey
        {} now2 env2).result.success = true ∧
    (fetchModels (fetchModels st provider apiKey opts1 now1 env1).state provider apiKey
        {} now2 env2).networkCalls = 0 ∧
    (fetchModels (fetchModels st provider apiKey opts1 now1 env1).state provider apiKey
        {} now2 env2).state =
      (fetchModels st provider apiKey opts1 now1 env1).state := by
  have hmiss1 : cacheHit st.cache (cacheKey provider apiKey) opts1.forceRefresh now1 = none := by
    unfold cacheHit
    rw [if_pos hforce]
  obtain ⟨src, hsrc, _, hcache⟩ :=
    fetchModels_miss_shape st provider apiKey opts1 now1 env1 hkey hmiss1
  generalize hout1 : fetchModels st provider apiKey opts1 now1 env1 = out1 at hsrc hcache ⊢
  have hhit2 : cacheHit out1.state.cache
      (cacheKey provider apiKey) ({} : ModelFetchOptions).forceRefresh now2 =
      some { models := out1.result.models, timestamp := now1, source := src } := by
    rw [hcache]
    unfold cacheHit
    rw [if_neg (by decide)]
    simp only [lookup_mapSet_self]
    rw [if_pos hfresh]
  have e2 : fetchModels out1.state provider apiKey {} now2 env2 =
      { result := { success := true, models := out1.result.models,
                    cachedAt := some now1, source := some src },
        state := out1.state, networkCalls := 0 } := by
    simp only [fetchModels, hkey, Bool.false_eq_true, if_false, hhit2]
  rw [e2, hsrc]
  exact ⟨rfl, rfl, rfl, rfl, rfl⟩

/-- Witness for C4 at concrete inputs. -/
theorem C4_cached_resolve_witness :
    (fetchModels (fetchModels emptyState .openai "k" ⟨none, none, true⟩ 0
        ⟨.ok [], .failure "net down"⟩).state .openai "k" {} 1
        ⟨.error "later", .failure "still down"⟩).result.models =
      (fetchModels emptyState .openai "k" ⟨none, none, true⟩ 0
        ⟨.ok [], .failure "net down"⟩).result.models ∧
    (fetchModels (fetchModels emptyState .openai "k" ⟨none, none, true⟩ 0
        ⟨.ok [], .failure "net down"⟩).state .openai "k" {} 1
        ⟨.error "later", .failure "still down"⟩).result.source =
      (fetchModels emptyState .openai "k" ⟨none, none, true⟩ 0
        ⟨.ok [], .failure "net down"⟩).result.source ∧
    (fetchModels (fetchModels emptyState .openai "k" ⟨none, none, true⟩ 0
        ⟨.ok [], .failure "net down"⟩).state .openai "k" {} 1
        ⟨.error "later", .failure "still down"⟩).result.success = true ∧
    (fetchModels (fetchModels emptyState .openai "k" ⟨none, none, true⟩ 0
        ⟨.ok [], .failure "net down"⟩).state .openai "k" {} 1
        ⟨.error "later", .failure "still down"⟩).networkCalls = 0 ∧
    (fetchModels (fetchModels emptyState .openai "k" ⟨none, none, true⟩ 0
        ⟨.ok [], .failure "net down"⟩).state .openai "k" {} 1
        ⟨.error "later", .failure "still down"⟩).state =
      (fetchModels emptyState .openai "k" ⟨none, none, true⟩ 0
        ⟨.ok [], .failure "net down"⟩).state :=
  C4_cached_resolve emptyState .openai "k" ⟨none, none, true⟩ 0
    ⟨.ok [], .failure "net down"⟩ 1 ⟨.error "later", .failure "still down"⟩
    (by decide) rfl (by decide)

/-! ## C7: catalog filtering and sorting -/

theorem charListLe_cons_iff (x y : Char) (xs ys : List Char) :
    charListLe (x :: xs) (y :: ys) = true ↔
      (x.toNat < y.toNat ∨ (x.toNat = y.toNat ∧ charListLe xs ys = true)) := by
  by_cases h1 : x.toNat < y.toNat
  · simp [charListLe, h1]
  · by_cases h2 : y.toNat < x.toNat
    · simp [charListLe, h1, h2]
      omega
    · have hxy : x.toNat = y.toNat := by omega
      simp [charListLe, h1, h2, hxy]

theorem charListLe_total : ∀ a b : List Char, charListLe a b = true ∨ charListLe b a = true := by
  intro a
  induction a with
  | nil => intro b; left; cases b <;> simp [charListLe]
  | cons x xs ih =>
    intro b
    cases b with
    | nil => right; simp [charListLe]
    | cons y ys =>
      by_cases h1 : x.toNat < y.toNat
      · left; exact (charListLe_cons_iff x y xs ys).mpr (Or.inl h1)
      · by_cases h2 : y.toNat < x.toNat
        · right; exact (charListLe_cons_iff y x ys xs).mpr (Or.inl h2)
        · rcases ih ys with h | h
          · left; exact (charListLe_cons_iff x y xs ys).mpr (Or.inr ⟨by omega, h⟩)
          · right; exact (charListLe_cons_iff y x ys xs).mpr (Or.inr ⟨by omega, h⟩)

theorem charListLe_trans : ∀ a b c : List Char,
    charListLe a b = true → charListLe b c = true → charListLe a c = true := by
  intro a
  induction a with
  | nil => intro b c _ _; cases c <;> simp [charListLe]
  | cons x xs ih =>
    intro b c hab hbc
    cases b with
    | nil => simp [charListLe] at hab
    | cons y ys =>
      cases c with
      | nil => simp [charListLe] at hbc
      | cons z zs =>
        rcases (charListLe_cons_iff x y xs ys).mp hab with h | ⟨hxy, hxs⟩ <;>
          rcases (charListLe_cons_iff y z ys zs).mp hbc with g | ⟨hyz, hys⟩
        · exact (charListLe_cons_iff x z xs zs).mpr (Or.inl (by omega))
        · exact (charListLe_cons_iff x z xs zs).mpr (Or.inl (by omega))
        · exact (charListLe_cons_iff x z xs zs).mpr (Or.inl (by omega))
        · exact (charListLe_cons_iff x z xs zs).mpr (Or.inr ⟨by omega, ih ys zs hxs hys⟩)

instance : IsTotal FetchedModel nameRel :=
  ⟨fun a b => charListLe_total (lowerChars a.name) (lowerChars b.name)⟩

instance : IsTrans FetchedModel nameRel :=
  ⟨fun a b c hab hbc =>
    charListLe_trans (lowerChars a.name) (lowerChars b.name) (lowerChars c.name) hab hbc⟩

/-- A speech-to-text catalog entry (output limit and cost not both zero). -/
def entryWhisper : ModelsDevModel :=
  { id := "whisper-large", name := "Whisper Large",
    cost := { input := 1, output := 2 }, limit := { context := 448, output := 448 } }

/-- A snapshot whose openai namespace holds only the speech-to-text entry. -/
def snapshotWhisper : ModelsDevCacheState :=
  { data := some [("openai", { name := "OpenAI", models := [("whisper-large", entryWhisper)] })],
    timestamp := 0, etag := none }

/-- C7 counterexample: an entry whose id carries a speech-to-text marker
("whisper") but contains neither "embedding" nor "tts" is NOT excluded by
getModelsFromModelsDev — the code has no speech-to-text marker check. -/
theorem C7_filter_counterexample :
    (getModelsFromModelsDev snapshotWhisper .openai).map (fun m => m.id) = ["whisper-large"] ∧
    strContains "whisper-large" "embedding" = false ∧
    strContains "whisper-large" "tts" = false ∧
    entryWhisper.status ≠ some "deprecated" ∧
    ¬(entryWhisper.limit.output = 0 ∧ entryWhisper.cost.output = 0) := by
  refine ⟨rfl, rfl, rfl, ?_, ?_⟩ <;> decide

/-- C7 amended: deriving a provider's models from the universal catalog
returns exactly the conversions of the provider-namespace entries that pass
the filter — which excludes entries whose status is "deprecated", whose id
contains "embedding" or "tts" (there is no speech-to-text marker check),
or whose output token limit and output cost are both exactly zero — as a
permutation of that filtered list, sorted by display name,
case-insensitively, ascending. -/
theorem C7_filter_sort_characterization (st : ModelsDevCacheState) (provider : APIProvider) :
    (getModelsFromModelsDev st provider).Perm
      (((providerCatalogEntries st provider).filter modelsDevKeep).map
        (fun m => modelsDevToFetchedModel m provider)) ∧
    List.Sorted nameRel (getModelsFromModelsDev st provider) ∧
    (∀ x : FetchedModel,
      x ∈ getModelsFromModelsDev st provider ↔
        ∃ m, m ∈ providerCatalogEntries st provider ∧ modelsDevKeep m = true ∧
          x = modelsDevToFetchedModel m provider) := by
  refine ⟨List.perm_insertionSort nameRel _, List.sorted_insertionSort nameRel _, ?_⟩
  intro x
  constructor
  · intro hx
    have hx' := (List.perm_insertionSort nameRel
      (((providerCatalogEntries st provider).filter modelsDevKeep).map
        (fun m => modelsDevToFetchedModel m provider))).mem_iff.mp hx
    obtain ⟨m, hm, hmx⟩ := List.mem_map.mp hx'
    obtain ⟨hmem, hkeep⟩ := List.mem_filter.mp hm
    exact ⟨m, hmem, hkeep, hmx.symm⟩
  · intro ⟨m, hmem, hkeep, hmx⟩
    apply (List.perm_insertionSort nameRel
      (((providerCatalogEntries st provider).filter modelsDevKeep).map
        (fun m => modelsDevToFetchedModel m provider))).mem_iff.mpr
    exact List.mem_map.mpr ⟨m, List.mem_filter.mpr ⟨hmem, hkeep⟩, hmx.symm⟩

/-- Witness for C7 at concrete inputs (the snapshot with one whisper entry). -/
theorem C7_filter_sort_witness :
    (getModelsFromModelsDev snapshotWhisper .openai).Perm
      (((providerCatalogEntries snapshotWhisper .openai).filter modelsDevKeep).map
        (fun m => modelsDevToFetchedModel m .openai)) ∧
    List.Sorted nameRel (getModelsFromModelsDev snapshotWhisper .openai) :=
  ⟨(C7_filter_sort_characterization snapshotWhisper .openai).1,
   (C7_filter_sort_characterization snapshotWhisper .openai).2.1⟩

/-! ## C6: enrichment merge semantics -/

/-- A catalog entry with a non-zero context limit. -/
def entryCtx100 : ModelsDevModel :=
  { id := "m1", name := "M1",
    cost := { input := 1, output := 2 }, limit := { context := 100, output := 50 } }

/-- A snapshot whose openai namespace holds entryCtx100. -/
def snapshotCtx100 : ModelsDevCacheState :=
  { data := some [("openai", { name := "OpenAI", models := [("m1", entryCtx100)] })],
    timestamp := 0, etag := none }

/-- An API model that already carries pricing and a present-but-zero
context length. -/
def modelCtxZero : FetchedModel :=
  { id := "m1", name := "m1", provider := .openai,
    pricing := some { input := 9, output := 9 }, contextLength := some 0 }

/-- C6 counterexample: an API model whose contextLength field is present
(value zero) has it overwritten by the catalog value, so the merge does not
fill ONLY missing context-length fields — JavaScript falsiness treats the
present zero as missing. -/
theorem C6_enrich_counterexample :
    modelCtxZero.contextLength = some 0 ∧
    (enrichWithModelsDev snapshotCtx100 [modelCtxZero] .openai).map
      (fun m => m.contextLength) = [some 100] := by
  refine ⟨rfl, ?_⟩
  decide

/-- C6 amended: for every list of API models and every provider catalog,
the merge maps each API model in place (original API order) through the
enrichment step and then appends exactly those catalog models whose id is
not present in the API result, in catalog (filtered, sorted) order; the
enrichment step keeps the model id, never overwrites present pricing, fills
missing pricing from the catalog, fills the context length when it is
missing OR ZERO (a zero context length is treated as absent), keeps a
present non-zero context length, ORs the vision and audio capability flags
(a flag already true from the API stays true), and keeps the chat flag. -/
theorem C6_enrich_characterization (st : ModelsDevCacheState) (provider : APIProvider)
    (models : List FetchedModel) (catalog : List (String × ModelsDevModel))
    (hcat : catalogFor st provider = some catalog) :
    ((∀ i : Nat, i < models.length →
        (enrichWithModelsDev st models provider)[i]? =
          (models[i]?).map (enrichOne catalog)) ∧
     (enrichWithModelsDev st models provider).drop models.length =
       (getModelsFromModelsDev st provider).filter
         (fun cm => !((models.map (fun m => m.id)).contains cm.id))) ∧
    (∀ m : FetchedModel,
       (enrichOne catalog m).id = m.id ∧
       (catalog.lookup m.id = none → enrichOne catalog m = m) ∧
       (m.pricing.isSome → (enrichOne catalog m).pricing = m.pricing) ∧
       (∀ ce, catalog.lookup m.id = some ce →
          (m.pricing = none →
            (enrichOne catalog m).pricing = some (pricingFromCost ce.cost)) ∧
          ((m.contextLength = none ∨ m.contextLength = some 0) →
            (enrichOne catalog m).contextLength = some ce.limit.context) ∧
          (∀ n : Nat, m.contextLength = some n → n ≠ 0 →
            (enrichOne catalog m).contextLength = some n) ∧
          (m.capabilities.bind (fun c => c.vision) = some true →
            (enrichOne catalog m).capabilities.bind (fun c => c.vision) = some true) ∧
          (m.capabilities.bind (fun c => c.audio) = some true →
            (enrichOne catalog m).capabilities.bind (fun c => c.audio) = some true) ∧
          (enrichOne catalog m).capabilities.bind (fun c => c.chat) =
            m.capabilities.bind (fun c => c.chat))) := by
  have he : enrichWithModelsDev st models provider =
      models.map (enrichOne catalog) ++
        (getModelsFromModelsDev st provider).filter
          (fun cm => !((models.map (fun m => m.id)).contains cm.id)) := by
    unfold enrichWithModelsDev
    rw [hcat]
  constructor
  · constructor
    · intro i hi
      rw [he, List.getElem?_append, if_pos (by simpa using hi), List.getElem?_map]
    · rw [he]
      have hl : (models.map (enrichOne catalog)).length = models.length :=
        List.length_map models (enrichOne catalog)
      rw [← hl, List.drop_left]
  · intro m
    refine ⟨?_, ?_, ?_, ?_⟩
    · unfold enrichOne
      cases catalog.lookup m.id <;> rfl
    · intro hnone
      unfold enrichOne
      rw [hnone]
    · intro hsome
      unfold enrichOne
      cases hlook : catalog.lookup m.id with
      | none => rfl
      | some ce =>
        cases hpr : m.pricing with
        | none => rw [hpr] at hsome; simp at hsome
        | some pr => simp [hpr]
    · intro ce hce
      unfold enrichOne
      rw [hce]
      refine ⟨?_, ?_, ?_, ?_, ?_, ?_⟩
      · intro hnone
        simp [hnone]
      · intro hctx
        rcases hctx with h | h <;> simp [h, jsOrNat]
      · intro n hn hne
        simp [hn, jsOrNat, hne]
      · intro hvision
        simp [hvision, jsOrOptBool]
      · intro haudio
        simp [haudio, jsOrOptBool]
      · simp

/-- Witness for C6 at concrete inputs. -/
theorem C6_enrich_characterization_witness :
    (enrichWithModelsDev snapshotCtx100 [modelCtxZero] .openai)[0]? =
      ([modelCtxZero][0]?).map (enrichOne [("m1", entryCtx100)]) ∧
    (enrichWithModelsDev snapshotCtx100 [modelCtxZero] .openai).drop
        ([modelCtxZero] : List FetchedModel).length =
      (getModelsFromModelsDev snapshotCtx100 .openai).filter
        (fun cm => !((([modelCtxZero] : List FetchedModel).map (fun m => m.id)).contains cm.id)) ∧
    (enrichOne [("m1", entryCtx100)] modelCtxZero).id = modelCtxZero.id :=
  ⟨((C6_enrich_characterization snapshotCtx100 .openai [modelCtxZero]
      [("m1", entryCtx100)] rfl).1.1) 0 (by decide),
   ((C6_enrich_characterization snapshotCtx100 .openai [modelCtxZero]
      [("m1", entryCtx100)] rfl).1.2),
   (((C6_enrich_characterization snapshotCtx100 .openai [modelCtxZero]
      [("m1", entryCtx100)] rfl).2) modelCtxZero).1⟩

/-! ## C5: enrichment is pricing-non-destructive and idempotent -/

theorem mem_of_lookup_eq_some {β : Type} :
    ∀ (l : List (String × β)) (k : String) (v : β), l.lookup k = some v → (k, v) ∈ l := by
  intro l
  induction l with
  | nil => intro k v h; simp at h
  | cons kv t ih =>
    intro k v h
    obtain ⟨a, b⟩ := kv
    by_cases hk : k = a
    · subst hk
      have hb : b = v := by simpa [List.lookup] using h
      subst hb
      exact List.mem_cons_self _ _
    · have h2 : (k == a) = false := by simp [hk]
      have h' : t.lookup k = some v := by simpa [List.lookup, h2] using h
      exact List.mem_cons_of_mem _ (ih k v h')

theorem lookup_of_mem_nodup {β : Type} :
    ∀ (l : List (String × β)) (k : String) (v : β),
      (k, v) ∈ l → (l.map Prod.fst).Nodup → l.lookup k = some v := by
  intro l
  induction l with
  | nil => intro k v h _; simp at h
  | cons kv t ih =>
    intro k v h hnd
    obtain ⟨a, b⟩ := kv
    rcases List.mem_cons.mp h with heq | hmem
    · have h1 : k = a := congrArg Prod.fst heq
      have h2 : v = b := congrArg Prod.snd heq
      subst h1; subst h2
      simp [List.lookup]
    · have hk : k ∈ t.map Prod.fst := List.mem_map.mpr ⟨(k, v), hmem, rfl⟩
      have hnd2 : (a :: t.map Prod.fst).Nodup := hnd
      obtain ⟨hna, hndt⟩ := List.nodup_cons.mp hnd2
      have hak : ¬ k = a := fun hka => hna (hka ▸ hk)
      have h2 : (k == a) = false := by simp [hak]
      simp [List.lookup, h2, ih k v hmem hndt]

theorem jsOrNat_self (c : Nat) : jsOrNat (some c) c = c := by
  by_cases hc : c = 0 <;> simp [jsOrNat, hc]

theorem jsOrNat_idem (a : Option Nat) (b : Nat) :
    jsOrNat (some (jsOrNat a b)) b = jsOrNat a b := by
  cases a with
  | none => by_cases hb : b = 0 <;> simp [jsOrNat, hb]
  | some n =>
    by_cases hn : n = 0
    · by_cases hb : b = 0 <;> simp [jsOrNat, hn, hb]
    · simp [jsOrNat, hn]

theorem jsOrOptBool_self (b : Option Bool) : jsOrOptBool b b = b := by
  by_cases hb : (b == some true) = true
  · have hb' : b = some true := by simpa using hb
    simp [jsOrOptBool, hb, hb']
  · simp [jsOrOptBool, hb]

theorem jsOrOptBool_idem (a b : Option Bool) :
    jsOrOptBool (jsOrOptBool a b) b = jsOrOptBool a b := by
  by_cases ha : (a == some true) = true
  · simp [jsOrOptBool, ha]
  · have h1 : jsOrOptBool a b = b := by simp [jsOrOptBool, ha]
    rw [h1, jsOrOptBool_self]

theorem enrichOne_keeps_id (catalog : List (String × ModelsDevModel)) (m : FetchedModel) :
    (enrichOne catalog m).id = m.id := by
  unfold enrichOne
  cases catalog.lookup m.id <;> rfl

theorem enrichOne_pricing_some (catalog : List (String × ModelsDevModel)) (m : FetchedModel)
    (pr : ModelPricing) (h : m.pricing = some pr) :
    (enrichOne catalog m).pricing = some pr := by
  unfold enrichOne
  cases catalog.lookup m.id with
  | none => exact h
  | some ce => simp [h]

theorem enrichOne_idem (catalog : List (String × ModelsDevModel)) (m : FetchedModel) :
    enrichOne catalog (enrichOne catalog m) = enrichOne catalog m := by
  obtain ⟨mid, mname, mprov, mpr, mctx, mcaps⟩ := m
  cases hlook : catalog.lookup mid with
  | none => simp [enrichOne, hlook]
  | some ce => simp [enrichOne, hlook, jsOrNat_idem, jsOrOptBool_idem]

theorem enrich_eq_of_none (st : ModelsDevCacheState) (provider : APIProvider)
    (models : List FetchedModel) (hcf : catalogFor st provider = none) :
    enrichWithModelsDev st models provider = models := by
  unfold enrichWithModelsDev
  rw [hcf]

theorem enrich_eq_of_catalog (st : ModelsDevCacheState) (provider : APIProvider)
    (catalog : List (String × ModelsDevModel)) (models : List FetchedModel)
    (hcf : catalogFor st provider = some catalog) :
    enrichWithModelsDev st models provider =
      models.map (enrichOne catalog) ++
        (getModelsFromModelsDev st provider).filter
          (fun cm => !((models.map (fun m => m.id)).contains cm.id)) := by
  unfold enrichWithModelsDev
  rw [hcf]

theorem providerCatalogEntries_eq (st : ModelsDevCacheState) (provider : APIProvider)
    (catalog : List (String × ModelsDevModel)) (hcat : catalogFor st provider = some catalog) :
    providerCatalogEntries st provider = catalog.map Prod.snd := by
  unfold catalogFor at hcat
  unfold providerCatalogEntries
  cases hd : st.data with
  | none => rw [hd] at hcat; simp at hcat
  | some data =>
    rw [hd] at hcat
    simp only [] at hcat ⊢
    by_cases hid : (PROVIDER_TO_MODELS_DEV provider == "") = true
    · rw [if_pos hid] at hcat; simp at hcat
    · rw [if_neg hid] at hcat
      rw [if_neg hid]
      cases hl : data.lookup (PROVIDER_TO_MODELS_DEV provider) with
      | none => rw [hl] at hcat; simp at hcat
      | some pd =>
        rw [hl] at hcat
        have hpd : pd.models = catalog := by simpa using hcat
        show pd.models.map Prod.snd = catalog.map Prod.snd
        rw [hpd]

/-- Well-formedness of the catalog snapshot, as guaranteed by the models.dev
data shape: inside each provider record, every model entry is keyed by its
own id and keys are not duplicated (a JavaScript object cannot repeat a
property name). -/
def snapshotWF (st : ModelsDevCacheState) : Prop :=
  ∀ pr ∈ st.data.getD [],
    (∀ km ∈ pr.2.models, (Prod.snd km).id = Prod.fst km) ∧
    (pr.2.models.map Prod.fst).Nodup

instance (st : ModelsDevCacheState) : Decidable (snapshotWF st) :=
  decidable_of_iff
    (∀ pr ∈ st.data.getD [],
      (∀ km ∈ pr.2.models, (Prod.snd km).id = Prod.fst km) ∧
      (pr.2.models.map Prod.fst).Nodup)
    Iff.rfl

theorem catalog_wf_of_snapshotWF (st : ModelsDevCacheState) (provider : APIProvider)
    (catalog : List (String × ModelsDevModel)) (hwf : snapshotWF st)
    (hcat : catalogFor st provider = some catalog) :
    (∀ km ∈ catalog, (Prod.snd km).id = Prod.fst km) ∧ (catalog.map Prod.fst).Nodup := by
  unfold catalogFor at hcat
  cases hd : st.data with
  | none => rw [hd] at hcat; simp at hcat
  | some data =>
    rw [hd] at hcat
    simp only [] at hcat
    by_cases hid : (PROVIDER_TO_MODELS_DEV provider == "") = true
    · rw [if_pos hid] at hcat; simp at hcat
    · rw [if_neg hid] at hcat
      cases hl : data.lookup (PROVIDER_TO_MODELS_DEV provider) with
      | none => rw [hl] at hcat; simp at hcat
      | some pd =>
        rw [hl] at hcat
        have hpd : pd.models = catalog := by simpa using hcat
        have hmem : (PROVIDER_TO_MODELS_DEV provider, pd) ∈ data :=
          mem_of_lookup_eq_some data _ pd hl
        have hw := hwf (PROVIDER_TO_MODELS_DEV provider, pd) (by rw [hd]; simpa using hmem)
        rw [← hpd]
        exact hw

theorem getModelsFromModelsDev_mem_source (st : ModelsDevCacheState) (provider : APIProvider)
    (catalog : List (String × ModelsDevModel)) (hcat : catalogFor st provider = some catalog)
    (x : FetchedModel) (hx : x ∈ getModelsFromModelsDev st provider) :
    ∃ k m, (k, m) ∈ catalog ∧ x = modelsDevToFetchedModel m provider := by
  unfold getModelsFromModelsDev at hx
  have hx' := (List.perm_insertionSort nameRel
    (((providerCatalogEntries st provider).filter modelsDevKeep).map
      (fun m => modelsDevToFetchedModel m provider))).mem_iff.mp hx
  obtain ⟨mm, hmf, hconv⟩ := List.mem_map.mp hx'
  have hmem : mm ∈ providerCatalogEntries st provider := (List.mem_filter.mp hmf).1
  rw [providerCatalogEntries_eq st provider catalog hcat] at hmem
  obtain ⟨⟨k, m⟩, hkm, hsnd⟩ := List.mem_map.mp hmem
  refine ⟨k, m, hkm, ?_⟩
  rw [← hconv]
  have hm : m = mm := hsnd
  rw [hm]

theorem enrichOne_fix_conv (catalog : List (String × ModelsDevModel))
    (hids : ∀ km ∈ catalog, (Prod.snd km).id = Prod.fst km)
    (hnd : (catalog.map Prod.fst).Nodup)
    (provider : APIProvider) (k : String) (m : ModelsDevModel) (hkm : (k, m) ∈ catalog) :
    enrichOne catalog (modelsDevToFetchedModel m provider) =
      modelsDevToFetchedModel m provider := by
  have hid : m.id = k := hids (k, m) hkm
  have hlook : catalog.lookup m.id = some m := by
    rw [hid]
    exact lookup_of_mem_nodup catalog k m hkm hnd
  simp [enrichOne, modelsDevToFetchedModel, hlook, jsOrNat_self, jsOrOptBool_self]

/-- C5: enrichment is pricing-non-destructive: whatever the catalog content,
an API model already carrying pricing keeps exactly that pricing in the
merged output at its original position; and on a well-formed snapshot
(catalog entries keyed by their own ids, keys not duplicated, as the
models.dev shape guarantees) applying the enrichment a second time to its
own output yields the same result. -/
theorem C5_pricing_nondestructive_idem (st : ModelsDevCacheState) (provider : APIProvider)
    (models : List FetchedModel) (hwf : snapshotWF st) :
    (∀ (i : Nat) (m : FetchedModel) (pr : ModelPricing),
       models[i]? = some m → m.pricing = some pr →
       ((enrichWithModelsDev st models provider)[i]?).map (fun x => x.pricing) =
         some (some pr)) ∧
    enrichWithModelsDev st (enrichWithModelsDev st models provider) provider =
      enrichWithModelsDev st models provider := by
  cases hcf : catalogFor st provider with
  | none =>
    constructor
    · intro i m pr hi hpr
      rw [enrich_eq_of_none st provider models hcf, hi]
      simp [hpr]
    · rw [enrich_eq_of_none st provider models hcf,
          enrich_eq_of_none st provider models hcf]
  | some catalog =>
    obtain ⟨hids, hnd⟩ := catalog_wf_of_snapshotWF st provider catalog hwf hcf
    have he := enrich_eq_of_catalog st provider catalog models hcf
    constructor
    · intro i m pr hi hpr
      have hlen : i < models.length := by
        rcases List.getElem?_eq_some_iff.mp hi with ⟨h, _⟩
        exact h
      rw [he, List.getElem?_append, if_pos (by simpa using hlen), List.getElem?_map, hi]
      simp [enrichOne_pricing_some catalog m pr hpr]
    · have he2 := enrich_eq_of_catalog st provider catalog
        (enrichWithModelsDev st models provider) hcf
      rw [he2]
      have hmapE : (enrichWithModelsDev st models provider).map (enrichOne catalog) =
          enrichWithModelsDev st models provider := by
        rw [he, List.map_append, List.map_map]
        congr 1
        · refine List.map_congr_left ?_
          intro a _
          simp only [Function.comp_apply]
          exact enrichOne_idem catalog a
        · have hfix : ∀ a ∈ (getModelsFromModelsDev st provider).filter
              (fun cm => !((models.map (fun m => m.id)).contains cm.id)),
              enrichOne catalog a = a := by
            intro a ha
            have hamem : a ∈ getModelsFromModelsDev st provider := (List.mem_filter.mp ha).1
            obtain ⟨k, mm, hkm, rfl⟩ :=
              getModelsFromModelsDev_mem_source st provider catalog hcf a hamem
            exact enrichOne_fix_conv catalog hids hnd provider k mm hkm
          calc ((getModelsFromModelsDev st provider).filter
                (fun cm => !((models.map (fun m => m.id)).contains cm.id))).map
                  (enrichOne catalog)
              = ((getModelsFromModelsDev st provider).filter
                (fun cm => !((models.map (fun m => m.id)).contains cm.id))).map id :=
                List.map_congr_left (fun a ha => hfix a ha)
            _ = (getModelsFromModelsDev st provider).filter
                (fun cm => !((models.map (fun m => m.id)).contains cm.id)) :=
                List.map_id _
      rw [hmapE]
      have hnil : (getModelsFromModelsDev st provider).filter
          (fun cm => !(((enrichWithModelsDev st models provider).map
            (fun m => m.id)).contains cm.id)) = [] := by
        apply List.filter_eq_nil_iff.mpr
        intro cm hcm
        have hidmem : cm.id ∈ (enrichWithModelsDev st models provider).map (fun m => m.id) := by
          rw [he, List.map_append]
          by_cases hin : cm.id ∈ models.map (fun m => m.id)
          · apply List.mem_append.mpr
            left
            have hids2 : (models.map (enrichOne catalog)).map (fun m => m.id) =
                models.map (fun m => m.id) := by
              rw [List.map_map]
              refine List.map_congr_left ?_
              intro a _
              simp only [Function.comp_apply]
              exact enrichOne_keeps_id catalog a
            rw [hids2]
            exact hin
          · apply List.mem_append.mpr
            right
            have hcontains : ((models.map (fun m => m.id)).contains cm.id) = false := by
              cases hc : (models.map (fun m => m.id)).contains cm.id with
              | false => rfl
              | true => exact absurd (by simpa [List.elem_iff] using hc) hin
            have hfm : cm ∈ (getModelsFromModelsDev st provider).filter
                (fun c => !((models.map (fun m => m.id)).contains c.id)) :=
              List.mem_filter.mpr ⟨hcm, by rw [hcontains]; rfl⟩
            exact List.mem_map.mpr ⟨cm, hfm, rfl⟩
        have hcont : ((enrichWithModelsDev st models provider).map
            (fun m => m.id)).contains cm.id = true := by
          simpa [List.elem_iff] using hidmem
        show ¬(!(((enrichWithModelsDev st models provider).map
          (fun m => m.id)).contains cm.id)) = true
        rw [hcont]
        decide
      rw [hnil, List.append_nil]

/-- Witness for C5 at concrete inputs. -/
theorem C5_pricing_nondestructive_idem_witness :
    (((enrichWithModelsDev snapshotCtx100 [modelCtxZero] .openai)[0]?).map
      (fun x => x.pricing) = some (some { input := 9, output := 9 })) ∧
    enrichWithModelsDev snapshotCtx100
        (enrichWithModelsDev snapshotCtx100 [modelCtxZero] .openai) .openai =
      enrichWithModelsDev snapshotCtx100 [modelCtxZero] .openai :=
  ⟨(C5_pricing_nondestructive_idem snapshotCtx100 .openai [modelCtxZero]
      (by decide)).1 0 modelCtxZero { input := 9, output := 9 } rfl rfl,
   (C5_pricing_nondestructive_idem snapshotCtx100 .openai [modelCtxZero]
      (by decide)).2⟩

end InterviewAssistant








